import Mathlib

/-!
Shallow embedding of the `tycronk20/browser-use-tc` repository's own logic:
the `CamoufoxBrowserSession` subclass (`src/custom/camoufox_browser_session.py`)
and the debug / smoke-test scripts around it.  Pure configuration processing is
translated to Lean functions; the effectful control flow (which library call
runs next, which exception is caught where) is translated to explicit state
passing, with the outcomes of external library calls supplied as `Except`
parameters.
-/

/-! ## Python string helpers

`needle in hay` for Python strings is a contiguous-substring test; `str.lower()`
is character-wise lowering. -/

/-- Contiguous-sublist test on lists of characters (Python's `in` on `str`). -/
def listContainsSub (needle : List Char) : List Char → Bool
  | [] => needle.isEmpty
  | _c :: t => needle.isPrefixOf (_c :: t) || listContainsSub needle t

/-- Python `needle in hay` for strings. -/
def strContains (hay needle : String) : Bool :=
  listContainsSub needle.data hay.data

/-- Python `str.lower()`, character-wise. -/
def pyLower (s : String) : String :=
  String.mk (s.data.map Char.toLower)

/-- The crash-detection heuristic used by the debug scripts:
`"crashed" in str(e).lower()` (character-wise ASCII lowering). -/
def isCrashMessage (msg : String) : Bool :=
  strContains (pyLower msg) "crashed"

/-! ## Python dicts as association lists

`{**a, **b}` builds a dict with the keys of `a` then those of `b`, values of
`b` winning on conflicts.  We model a dict as an association list with the
usual first-match lookup, and the merge as a left fold of key-replacing
inserts, which is exactly Python's behaviour for dicts with unique keys. -/

/-- First-match lookup in an association list keyed by strings. -/
def dlookup {β : Type} (k : String) : List (String × β) → Option β
  | [] => none
  | p :: d => if k = p.1 then some p.2 else dlookup k d

/-- Insert `kv` into dict `d` Python-style: replace the value in place if the
key is present, otherwise append at the end. -/
def dictInsert {β : Type} (d : List (String × β)) (kv : String × β) :
    List (String × β) :=
  if d.any fun p => p.1 = kv.1 then
    d.map fun p => if p.1 = kv.1 then (p.1, kv.2) else p
  else d ++ [kv]

/-- Python `{**a, **b}`. -/
def dictMerge {β : Type} (a b : List (String × β)) : List (String × β) :=
  b.foldl dictInsert a

/-- Keys of a dict. -/
def dictKeys {β : Type} (d : List (String × β)) : List String :=
  d.map Prod.fst

/-! ## Firefox preference and Camoufox option values -/

/-- A Firefox user-preference value (`firefox_user_prefs` dict values in the
source are booleans and integers). -/
inductive PrefVal : Type
  | pbool (b : Bool)
  | pint (n : Int)
  deriving DecidableEq, Repr

/-- A value in the Camoufox options dict (`geoip`, `addons`, `block_webgl`,
… in the source are booleans, `None`, strings or lists of strings). -/
inductive OptVal : Type
  | obool (b : Bool)
  | onone
  | ostr (s : String)
  | olist (l : List String)
  deriving DecidableEq, Repr

/-- Constructor inputs of `CamoufoxBrowserSession.__init__` that the class
itself consumes (each `kwargs.pop`); `none` means the keyword was not passed.
-/
structure CamoufoxInit : Type where
  geoip : Option OptVal
  addons : Option OptVal
  fonts : Option OptVal
  screen : Option OptVal
  os : Option OptVal
  block_webgl : Option OptVal
  block_webrtc : Option OptVal
  disable_coop : Option OptVal
  firefox_user_prefs : List (String × PrefVal)
  args : List String
  deriving DecidableEq, Repr

/-- The `CamoufoxInit` with every keyword left unsupplied (the `kwargs.pop`
defaults apply: `geoip=True`, the rest `None`, `firefox_user_prefs={}`,
`args=[]`). -/
def CamoufoxInit.empty : CamoufoxInit :=
  ⟨none, none, none, none, none, none, none, none, [], []⟩

/-- The dict `self.camoufox_options` as stored by `__init__`: the five base keys
(`geoip` popped with default `True`, the rest with default `None`), then each
stability key added only `if <option> is not None`.  Passing `None` explicitly
and not passing the keyword are indistinguishable after `kwargs.pop(k, None)`,
so a supplied `None` is also modelled by skipping the entry. -/
def storedCamoufoxOptions (i : CamoufoxInit) : List (String × OptVal) :=
  [("geoip", i.geoip.getD (OptVal.obool true)),
   ("addons", i.addons.getD OptVal.onone),
   ("fonts", i.fonts.getD OptVal.onone),
   ("screen", i.screen.getD OptVal.onone),
   ("os", i.os.getD OptVal.onone)]
  ++ (match i.block_webgl with
      | some v => if v ≠ OptVal.onone then [("block_webgl", v)] else []
      | none => [])
  ++ (match i.block_webrtc with
      | some v => if v ≠ OptVal.onone then [("block_webrtc", v)] else []
      | none => [])
  ++ (match i.disable_coop with
      | some v => if v ≠ OptVal.onone then [("disable_coop", v)] else []
      | none => [])

/-- The `default_firefox_prefs` of `setup_new_browser_context`. -/
def default_firefox_prefs : List (String × PrefVal) :=
  [("gfx.webrender.software", PrefVal.pbool true),
   ("fission.autostart", PrefVal.pbool false),
   ("dom.ipc.processCount", PrefVal.pint 4)]

/-- The `default_launch_args` of `setup_new_browser_context`. -/
def default_launch_args : List String := ["--disable-gpu"]

/-- Everything `setup_new_browser_context` passes to the `AsyncCamoufox`
constructor. -/
structure AsyncCamoufoxArgs : Type where
  headless : Bool
  options : List (String × OptVal)
  config_disableTheming : Bool
  config_showcursor : Bool
  firefox_user_prefs : List (String × PrefVal)
  args : List String
  proxy : Option String
  deriving DecidableEq, Repr

/-- The options `setup_new_browser_context` builds from the stored
constructor inputs: merged Firefox prefs (`{**default_firefox_prefs,
**self.firefox_user_prefs}`), deduplicated launch args
(`list(set(default_launch_args + self.args))`, modelled up to the arbitrary
set order by `List.dedup`), the fixed `config` dict, and the stored Camoufox
options spread in. -/
def buildCamoufoxOptions (i : CamoufoxInit) (headless : Bool)
    (proxy : Option String) : AsyncCamoufoxArgs :=
  { headless := headless
    options := storedCamoufoxOptions i
    config_disableTheming := true
    config_showcursor := false
    firefox_user_prefs := dictMerge default_firefox_prefs i.firefox_user_prefs
    args := (default_launch_args ++ i.args).dedup
    proxy := proxy }

/-! ## Session state and the `start` control flow

The mutable attributes of a `CamoufoxBrowserSession` that this repository's
own code reads or writes.  The browser, context and Camoufox instance objects
are abstract (identified by numbers); the parent-class setup methods are
external library calls whose behaviour is supplied as a parameter. -/

/-- The session attributes touched by `camoufox_browser_session.py`. -/
structure SessionState : Type where
  initialized : Bool
  browser_context : Option Nat
  browser : Option Nat
  camoufox_instance : Option Nat
  deriving DecidableEq, Repr

/-- The setup steps `CamoufoxBrowserSession.start` runs inside its `try`
block, in source order. -/
inductive StartStep : Type
  | prepare_user_data_dir
  | detect_display_configuration
  | setup_playwright
  | setup_browser_via_passed_objects
  | setup_browser_via_browser_pid
  | setup_browser_via_wss_url
  | setup_browser_via_cdp_url
  | setup_new_browser_context
  | setup_viewports
  | setup_current_page_change_listeners
  deriving DecidableEq, Repr

/-- The fixed sequence of setup steps in `start`'s `try` block. -/
def startSeq : List StartStep :=
  [StartStep.prepare_user_data_dir,
   StartStep.detect_display_configuration,
   StartStep.setup_playwright,
   StartStep.setup_browser_via_passed_objects,
   StartStep.setup_browser_via_browser_pid,
   StartStep.setup_browser_via_wss_url,
   StartStep.setup_browser_via_cdp_url,
   StartStep.setup_new_browser_context,
   StartStep.setup_viewports,
   StartStep.setup_current_page_change_listeners]

/-- The steps up to and including `setup_new_browser_context`, after which
`start` asserts that a browser context exists. -/
def stepsBeforeAssert : List StartStep :=
  [StartStep.prepare_user_data_dir,
   StartStep.detect_display_configuration,
   StartStep.setup_playwright,
   StartStep.setup_browser_via_passed_objects,
   StartStep.setup_browser_via_browser_pid,
   StartStep.setup_browser_via_wss_url,
   StartStep.setup_browser_via_cdp_url,
   StartStep.setup_new_browser_context]

/-- The steps after the assertion. -/
def stepsAfterAssert : List StartStep :=
  [StartStep.setup_viewports, StartStep.setup_current_page_change_listeners]

/-- The behaviour of one setup step: from the state it is called in, the
state it leaves behind and either normal return or a raised exception
(modelled by the exception's `str`). -/
def StepEnv : Type := StartStep → SessionState → SessionState × Except String Unit

/-- Run a list of steps in order, recording for each executed step the state
it was called in, and stopping at the first step that raises. -/
def runSteps (env : StepEnv) :
    SessionState → List StartStep →
    SessionState × List (StartStep × SessionState) × Except String Unit
  | s, [] => (s, [], Except.ok ())
  | s, st :: rest =>
    match env st s with
    | (s', Except.error e) => (s', [(st, s)], Except.error e)
    | (s', Except.ok _) =>
      match runSteps env s' rest with
      | (s'', tr, r) => (s'', (st, s) :: tr, r)

/-- The body of `start`'s `try` block: the steps through
`setup_new_browser_context`, then `assert self.browser_context` (raising an
`AssertionError` when the context is still `None`), then viewport and
page-listener setup. -/
def startTryBody (env : StepEnv) (s : SessionState) :
    SessionState × List (StartStep × SessionState) × Except String Unit :=
  match runSteps env s stepsBeforeAssert with
  | (s₁, tr₁, Except.error e) => (s₁, tr₁, Except.error e)
  | (s₁, tr₁, Except.ok _) =>
    match s₁.browser_context with
    | none => (s₁, tr₁, Except.error "AssertionError: Failed to connect to or create a new BrowserContext")
    | some _ =>
      match runSteps env s₁ stepsAfterAssert with
      | (s₂, tr₂, r) => (s₂, tr₁ ++ tr₂, r)

/-- The method `CamoufoxBrowserSession.start` under the `_start_lock`: if the session is
already initialized and connected it returns immediately; otherwise it resets
the connection state (a parent-class call, supplied as `reset`), sets
`initialized = True` first, runs the setup sequence, and on any exception
resets `initialized = False` and re-raises.  The result is the final state,
the executed steps with the state each was called in, and the outcome
(`Except.ok` models `return self`). -/
def sessionStart (env : StepEnv) (is_connected : SessionState → Bool)
    (reset : SessionState → SessionState) (s : SessionState) :
    SessionState × List (StartStep × SessionState) × Except String Unit :=
  if s.initialized && is_connected s then
    (s, [], Except.ok ())
  else
    let s₁ : SessionState := { reset s with initialized := true }
    match startTryBody env s₁ with
    | (s₂, tr, Except.error e) => ({ s₂ with initialized := false }, tr, Except.error e)
    | (s₂, tr, Except.ok _) => (s₂, tr, Except.ok ())

/-! ## `setup_new_browser_context` -/

/-- External outcomes consumed by `setup_new_browser_context` when it really
launches: the result of `AsyncCamoufox(...).__aenter__()` (giving the browser
object or raising), the browser's pre-existing contexts, and the result of
`browser.new_context(...)` when no context exists yet. -/
structure LaunchEnv : Type where
  aenter : Except String Nat
  contexts : List Nat
  new_context : Except String Nat
  deriving Repr

/-- The method `CamoufoxBrowserSession.setup_new_browser_context`: returns immediately
when `self.browser_context` is already set; otherwise builds the launch
options (see `buildCamoufoxOptions`), launches Camoufox, stores the browser,
and uses the first existing context or creates a new one.  The returned
`Option AsyncCamoufoxArgs` records the options passed to the `AsyncCamoufox`
constructor (`none` when no launch happened). -/
def setupNewBrowserContext (i : CamoufoxInit) (headless : Bool)
    (proxy : Option String) (lenv : LaunchEnv) (s : SessionState) :
    SessionState × Option AsyncCamoufoxArgs × Except String Unit :=
  match s.browser_context with
  | some _ => (s, none, Except.ok ())
  | none =>
    let opts := buildCamoufoxOptions i headless proxy
    match lenv.aenter with
    | Except.error e => ({ s with camoufox_instance := some 0 }, some opts, Except.error e)
    | Except.ok b =>
      let s₁ : SessionState := { s with camoufox_instance := some 0, browser := some b }
      match lenv.contexts with
      | c :: _ => ({ s₁ with browser_context := some c }, some opts, Except.ok ())
      | [] =>
        match lenv.new_context with
        | Except.error e => (s₁, some opts, Except.error e)
        | Except.ok c => ({ s₁ with browser_context := some c }, some opts, Except.ok ())

/-! ## `close` -/

/-- Calls `close` makes inside its `try` block, each recorded with the
session state at the moment of the call. -/
inductive CloseCall : Type
  | aexit (s : SessionState)
  | stop (s : SessionState)
  deriving DecidableEq, Repr

/-- The `try` block of `CamoufoxBrowserSession.close`: when a Camoufox
instance exists it first clears `browser_context` and `browser`, then awaits
the instance's `__aexit__`, then clears `_camoufox_instance`; finally it
calls the parent's `stop`.  `aexit` and `stop` supply the outcomes of the
two external calls; an `Except.error` outcome is the exception escaping the
block. -/
def closeTryBody (aexit stop : Except String Unit) (s : SessionState) :
    SessionState × List CloseCall × Except String Unit :=
  match s.camoufox_instance with
  | some _ =>
    let s₁ : SessionState := { s with browser_context := none, browser := none }
    match aexit with
    | Except.error e => (s₁, [CloseCall.aexit s₁], Except.error e)
    | Except.ok _ =>
      let s₂ : SessionState := { s₁ with camoufox_instance := none }
      match stop with
      | Except.error e => (s₂, [CloseCall.aexit s₁, CloseCall.stop s₂], Except.error e)
      | Except.ok _ => (s₂, [CloseCall.aexit s₁, CloseCall.stop s₂], Except.ok ())
  | none =>
    match stop with
    | Except.error e => (s, [CloseCall.stop s], Except.error e)
    | Except.ok _ => (s, [CloseCall.stop s], Except.ok ())

/-- The whole of `close`: the `try` body above wrapped in
`except Exception as e: logger.warning(...)` — a raised exception becomes a
returned log warning (the `Option String`) and nothing propagates. -/
def sessionClose (aexit stop : Except String Unit) (s : SessionState) :
    SessionState × List CloseCall × Option String :=
  match closeTryBody aexit stop s with
  | (s', calls, Except.ok _) => (s', calls, none)
  | (s', calls, Except.error e) => (s', calls, some e)

/-! ## `_setup_viewports` permission filtering -/

/-- The two permissions `_setup_viewports` always filters out before calling
`grant_permissions` (Firefox does not support them). -/
def unsupportedFirefoxPermissions : List String :=
  ["clipboard-read", "clipboard-write"]

/-- The list comprehension `[p for p in permissions if p not in
['clipboard-read', 'clipboard-write']]`. -/
def supportedPermissions (perms : List String) : List String :=
  perms.filter fun p => ¬ p ∈ unsupportedFirefoxPermissions

/-- The argument `_setup_viewports` passes to
`browser_context.grant_permissions`, or `none` when the call is skipped: the
whole block is guarded by `if self.browser_profile.permissions:` and the call
itself by `if supported_permissions:`. -/
def grantPermissionsCall (perms : List String) : Option (List String) :=
  if perms.isEmpty then none
  else
    let sp := supportedPermissions perms
    if sp.isEmpty then none else some sp

/-! ## `debug_camoufox_fixed.py`: module-time environment setup and the
navigation loop over test sites -/

/-- A top-level event of one of the debug modules: an `os.environ[...] = v`
assignment or a browser-driving call (`asyncio.run(...)`). -/
inductive ModuleEv : Type
  | envSet (name val : String)
  | browserCall (descr : String)
  deriving DecidableEq, Repr

/-- Apply a module's top-level events to an environment-variable mapping
(assignments later in the module win, as `dictInsert` replaces in place). -/
def applyModule (e : List (String × String)) : List ModuleEv → List (String × String)
  | [] => e
  | ModuleEv.envSet n v :: rest => applyModule (dictInsert e (n, v)) rest
  | ModuleEv.browserCall _ :: rest => applyModule e rest

/-- Holds (as `true`) iff no environment assignment occurs after any browser call. -/
def envSetsBeforeBrowserCalls : List ModuleEv → Bool
  | [] => true
  | ModuleEv.envSet _ _ :: rest => envSetsBeforeBrowserCalls rest
  | ModuleEv.browserCall _ :: rest =>
    rest.all fun ev => match ev with
      | ModuleEv.envSet _ _ => false
      | ModuleEv.browserCall _ => true

/-- The top-level effects of `debug_camoufox_fixed.py` in source order: the
single environment assignment at import time, then the `asyncio.run` of the
debug coroutine in the `__main__` guard. -/
def debugCamoufoxFixedModule : List ModuleEv :=
  [ModuleEv.envSet "MOZ_DISABLE_CONTENT_SANDBOX" "1",
   ModuleEv.browserCall "asyncio.run(debug_camoufox_fixed())"]

/-- The top-level effects of `debug_camoufox_ultra_stable.py` in source
order: four environment assignments at import time, then the `asyncio.run`
in the `__main__` guard. -/
def debugCamoufoxUltraStableModule : List ModuleEv :=
  [ModuleEv.envSet "MOZ_DISABLE_CONTENT_SANDBOX" "1",
   ModuleEv.envSet "MOZ_FORCE_DISABLE_E10S" "1",
   ModuleEv.envSet "MOZ_X11_EGL" "0",
   ModuleEv.envSet "MOZ_WEBRENDER" "0",
   ModuleEv.browserCall "asyncio.run(test_ultra_stable())"]

/-- An observable event of the per-site loop body in `debug_camoufox_fixed`.
-/
inductive NavEv : Type
  | goto (url waitUntil : String) (timeoutMs : Nat)
  | sleep (secs : Nat)
  | logSuccess
  | logError (msg : String)
  | logCrashDetected
  | gotoBlank
  | evaluateDisableFeatures
  | logFallbackSuccess
  | logFallbackError
  deriving DecidableEq, Repr

/-- The outcomes of the awaited calls one iteration of the
`debug_camoufox_fixed` site loop can make: the initial `page.goto`, the
`page.goto("about:blank")`, the `page.evaluate(...)`, and the retry
`page.goto`.  `Except.error e` models the call raising an exception whose
`str` is `e`. -/
structure FixedSiteOutcome : Type where
  firstGoto : Except String Unit
  blankGoto : Except String Unit
  evalJs : Except String Unit
  retryGoto : Except String Unit
  deriving Repr

/-- One iteration of `for url, name in test_sites:` in
`debug_camoufox_fixed`: try `page.goto(url, wait_until="domcontentloaded",
timeout=30000)` and sleep; on an exception log the error and, only when the
crash heuristic fires, go to `about:blank`, run the feature-disabling
JavaScript, and retry the same URL once with `wait_until="networkidle",
timeout=10000`, logging the retry's failure without any further attempt.
The second component is `Except.ok ()` when the iteration falls through to
the next site and `Except.error e` when an exception escapes the loop body
(possible only from the uncaught fallback preamble). -/
def fixedSiteBody (url : String) (o : FixedSiteOutcome) :
    List NavEv × Except String Unit :=
  match o.firstGoto with
  | Except.ok _ =>
    ([NavEv.goto url "domcontentloaded" 30000, NavEv.sleep 2, NavEv.logSuccess],
     Except.ok ())
  | Except.error e =>
    let pre := [NavEv.goto url "domcontentloaded" 30000, NavEv.logError e]
    if isCrashMessage e then
      match o.blankGoto with
      | Except.error e' =>
        (pre ++ [NavEv.logCrashDetected, NavEv.gotoBlank], Except.error e')
      | Except.ok _ =>
        match o.evalJs with
        | Except.error e' =>
          (pre ++ [NavEv.logCrashDetected, NavEv.gotoBlank,
                   NavEv.evaluateDisableFeatures], Except.error e')
        | Except.ok _ =>
          match o.retryGoto with
          | Except.ok _ =>
            (pre ++ [NavEv.logCrashDetected, NavEv.gotoBlank,
                     NavEv.evaluateDisableFeatures,
                     NavEv.goto url "networkidle" 10000,
                     NavEv.logFallbackSuccess], Except.ok ())
          | Except.error _ =>
            (pre ++ [NavEv.logCrashDetected, NavEv.gotoBlank,
                     NavEv.evaluateDisableFeatures,
                     NavEv.goto url "networkidle" 10000,
                     NavEv.logFallbackError], Except.ok ())
    else (pre, Except.ok ())

/-- The crash-recovery path of `debug_camoufox_fixed` was taken in a trace:
the loop body navigated to `about:blank` (the first statement of the
fallback sequence). -/
def tookFixedCrashRecovery (evs : List NavEv) : Bool :=
  evs.any fun ev => ev = NavEv.gotoBlank

/-! ## `debug_camoufox_ultra_stable.py`: the navigation loop -/

/-- An observable event of the per-site loop body in
`debug_camoufox_ultra_stable`. -/
inductive UltraEv : Type
  | goto (url waitUntil : String) (timeoutMs : Nat)
  | sleep (secs : Nat)
  | logLoaded
  | logCrashed (msg : String)
  | recoverPage
  | logRecoverFailed
  | logFailed (msg : String)
  deriving DecidableEq, Repr

/-- One iteration of the site loop in `test_ultra_stable`: try
`page.goto(url, wait_until="domcontentloaded", timeout=20000)` and sleep; on
an exception, when the crash heuristic fires, log the crash and try to
recover the page via `get_current_page` (breaking out of the loop when even
that fails), otherwise just log the failure.  `firstGoto` and `recover` are
the outcomes of the two awaited calls; the `Bool` is `true` when the loop
continues to the next site. -/
def ultraSiteBody (url : String) (firstGoto recover : Except String Unit) :
    List UltraEv × Bool :=
  match firstGoto with
  | Except.ok _ =>
    ([UltraEv.goto url "domcontentloaded" 20000, UltraEv.sleep 1,
      UltraEv.logLoaded], true)
  | Except.error e =>
    if isCrashMessage e then
      match recover with
      | Except.ok _ =>
        ([UltraEv.goto url "domcontentloaded" 20000, UltraEv.logCrashed e,
          UltraEv.recoverPage], true)
      | Except.error _ =>
        ([UltraEv.goto url "domcontentloaded" 20000, UltraEv.logCrashed e,
          UltraEv.recoverPage, UltraEv.logRecoverFailed], false)
    else
      ([UltraEv.goto url "domcontentloaded" 20000, UltraEv.logFailed e], true)

/-- The crash-recovery path of `test_ultra_stable` was taken in a trace: the
loop body attempted to re-acquire the page. -/
def tookUltraCrashRecovery (evs : List UltraEv) : Bool :=
  evs.any fun ev => ev = UltraEv.recoverPage

/-! ## `debug_camoufox_tui_enhanced.py`: the `asyncio.wait_for` sites -/

/-- A Python exception as dispatched by the `except` clauses of
`debug_camoufox_tui_enhanced.py`: `asyncio.TimeoutError` is matched
separately from every other exception. -/
inductive PyExc : Type
  | timeoutError
  | otherExc (msg : String)
  deriving DecidableEq, Repr

/-- One `asyncio.wait_for(coro, timeout=...)` call site in the repository.
-/
structure WaitForSite : Type where
  file : String
  wrapped : String
  timeoutSecs : Nat
  deriving DecidableEq, Repr

/-- Every `asyncio.wait_for` call in the repository (there are exactly two,
both in `debug_camoufox_tui_enhanced.py`). -/
def repoWaitForSites : List WaitForSite :=
  [{ file := "custom/debug_camoufox_tui_enhanced.py"
     wrapped := "agent.run()"
     timeoutSecs := 30 },
   { file := "custom/debug_camoufox_tui_enhanced.py"
     wrapped := "agent_task_worker()"
     timeoutSecs := 30 }]

/-- The outcome of awaiting `asyncio.wait_for(c, timeout=30.0)`: the wrapped
coroutine finished (with its own result) or the timeout fired. -/
inductive WaitOutcome : Type
  | completed (r : Except PyExc Unit)
  | timedOut
  deriving Repr

/-- The nested `run_with_timeout` of `test_agent_execution_flow`: awaits
`asyncio.wait_for(agent.run(), timeout=30.0)` exactly once; on
`asyncio.TimeoutError` it logs and re-raises, and any other outcome of the
wrapped call propagates unchanged.  The `Nat` counts how many times the
wrapped call was scheduled. -/
def runWithTimeout (w : WaitOutcome) : Except PyExc Unit × Nat :=
  match w with
  | WaitOutcome.completed r => (r, 1)
  | WaitOutcome.timedOut => (Except.error PyExc.timeoutError, 1)

/-- The function `test_agent_execution_flow` around its timeout test: `pre` is the
combined outcome of steps 1–7 (config, LLM, controller, session creation,
start, navigation, agent creation — any exception there is caught by the
outer handlers and yields `False`); then `run_with_timeout` is awaited, its
`asyncio.TimeoutError` is caught by the dedicated handler and every other
exception by the generic one, both returning `False`; only full completion
returns `True`.  The `Nat` counts invocations of the timed call. -/
def testAgentExecutionFlow (pre : Except PyExc Unit) (w : WaitOutcome) :
    Bool × Nat :=
  match pre with
  | Except.error _ => (false, 0)
  | Except.ok _ =>
    match runWithTimeout w with
    | (Except.error _, n) => (false, n)
    | (Except.ok _, n) => (true, n)

/-- The function `test_tui_mimicry`: awaits `asyncio.wait_for(agent_task_worker(),
timeout=30.0)` exactly once inside `try`; the worker catches its own
exceptions, so the wait either completes (→ `True`) or times out (→ the
`except asyncio.TimeoutError` handler logs and returns `False`).  The `Nat`
counts invocations of the timed call. -/
def testTuiMimicry (w : WaitOutcome) : Bool × Nat :=
  match w with
  | WaitOutcome.completed _ => (true, 1)
  | WaitOutcome.timedOut => (false, 1)

/-! ## `test_camoufox_complete.py`: `test_browser_use_integration` -/

/-- The outcomes of the awaited calls inside the `try` block of
`test_browser_use_integration`, in source order: `session.start()`,
`page.goto('https://example.com')`, `wait_for_load_state('networkidle')`,
`page.title()`, `page.evaluate('navigator.userAgent')`,
`page.evaluate('navigator.webdriver')`, `session.close()`. -/
structure IntegrationOutcomes : Type where
  start : Except String Unit
  goto : Except String Unit
  waitLoad : Except String Unit
  title : Except String String
  evalUserAgent : Except String String
  evalWebdriver : Except String String
  close : Except String Unit
  deriving Repr

/-- The function `test_browser_use_integration`: every exception raised anywhere in the
session lifecycle is caught by the `except` clause and yields `False`;
otherwise the result is `'Example Domain' in title and 'Firefox' in
user_agent`. -/
def testBrowserUseIntegration (o : IntegrationOutcomes) : Bool :=
  match o.start with
  | Except.error _ => false
  | Except.ok _ =>
  match o.goto with
  | Except.error _ => false
  | Except.ok _ =>
  match o.waitLoad with
  | Except.error _ => false
  | Except.ok _ =>
  match o.title with
  | Except.error _ => false
  | Except.ok t =>
  match o.evalUserAgent with
  | Except.error _ => false
  | Except.ok ua =>
  match o.evalWebdriver with
  | Except.error _ => false
  | Except.ok _ =>
  match o.close with
  | Except.error _ => false
  | Except.ok _ => strContains t "Example Domain" && strContains ua "Firefox"

/-! ## Small helpers and concrete fixtures used by witnesses -/

/-- Python-style `a or b` on optional lookups: the first dict that has the
key wins. -/
def oOr {β : Type} (a b : Option β) : Option β :=
  match a with
  | some v => some v
  | none => b

/-- A concrete constructor input exercising every branch of the
configuration forwarding: a user preference overriding a default, extra
launch args (one duplicating the default), and the stability options
supplied. -/
def demoInit : CamoufoxInit :=
  { geoip := none
    addons := none
    fonts := none
    screen := none
    os := none
    block_webgl := some (OptVal.obool true)
    block_webrtc := some (OptVal.obool true)
    disable_coop := some OptVal.onone
    firefox_user_prefs := [("dom.ipc.processCount", PrefVal.pint 2),
                           ("browser.tabs.remote.autostart", PrefVal.pbool false)]
    args := ["--disable-gpu", "--safe-mode"] }

/-- A step environment where every parent setup call is a no-op except
`setup_new_browser_context`, which installs a browser, a context and the
Camoufox instance — the behaviour of a plain successful launch. -/
def demoEnv : StepEnv := fun st s =>
  match st with
  | StartStep.setup_new_browser_context =>
    ({ s with browser_context := some 1, browser := some 1,
              camoufox_instance := some 0 }, Except.ok ())
  | _ => (s, Except.ok ())

/-- A fresh, never-started session. -/
def freshSession : SessionState :=
  { initialized := false, browser_context := none, browser := none,
    camoufox_instance := none }

/-- A session holding a live Camoufox browser. -/
def liveSession : SessionState :=
  { initialized := true, browser_context := some 1, browser := some 1,
    camoufox_instance := some 0 }

/-- An `is_connected` of a session that reports connected exactly when a
browser context is present. -/
def demoIsConnected (s : SessionState) : Bool :=
  s.browser_context.isSome

/-- A `_reset_connection_state` that clears the connection attributes. -/
def demoReset (s : SessionState) : SessionState :=
  { s with initialized := false, browser_context := none, browser := none }

/-- Outcomes for one `debug_camoufox_fixed` site iteration whose initial
navigation dies with a tab crash and whose fallback retry times out. -/
def demoCrashOutcome : FixedSiteOutcome :=
  { firstGoto := Except.error "Page crashed"
    blankGoto := Except.ok ()
    evalJs := Except.ok ()
    retryGoto := Except.error "Timeout 10000ms exceeded" }

/-- Outcomes of a fully successful `test_browser_use_integration` run. -/
def demoIntegrationOk : IntegrationOutcomes :=
  { start := Except.ok ()
    goto := Except.ok ()
    waitLoad := Except.ok ()
    title := Except.ok "Example Domain"
    evalUserAgent := Except.ok "Mozilla/5.0 (X11; Linux x86_64; rv:132.0) Gecko/20100101 Firefox/132.0"
    evalWebdriver := Except.ok "undefined"
    close := Except.ok () }

/-! # Theorems -/

/-! ## Dictionary lemmas -/

theorem dlookup_append {β : Type} (k : String) (d₁ d₂ : List (String × β)) :
    dlookup k (d₁ ++ d₂) = oOr (dlookup k d₁) (dlookup k d₂) := by
  induction d₁ with
  | nil => simp [dlookup, oOr]
  | cons p d ih =>
    by_cases h : k = p.1 <;> simp [dlookup, h, oOr, ih]

theorem dlookup_eq_none_of_not_mem_keys {β : Type} (k : String)
    (d : List (String × β)) (h : ¬ k ∈ dictKeys d) : dlookup k d = none := by
  induction d with
  | nil => simp [dlookup]
  | cons p d ih =>
    simp only [dictKeys, List.map_cons, List.mem_cons] at h
    push_neg at h
    simp [dlookup, h.1, ih (by simpa [dictKeys] using h.2)]

theorem any_key_eq_isSome {β : Type} (k : String) (d : List (String × β)) :
    (d.any fun p => p.1 = k) = (dlookup k d).isSome := by
  induction d with
  | nil => simp [dlookup]
  | cons p d ih =>
    by_cases h : k = p.1
    · simp [dlookup, h]
    · have h' : ¬ p.1 = k := fun hh => h hh.symm
      simp [dlookup, h, h', ih]

theorem dlookup_map_replace {β : Type} (k k₀ : String) (v₀ : β)
    (d : List (String × β)) :
    dlookup k (d.map fun p => if p.1 = k₀ then (p.1, v₀) else p) =
      if k = k₀ then (dlookup k₀ d).map (fun _ => v₀) else dlookup k d := by
  induction d with
  | nil => simp [dlookup]
  | cons p d ih =>
    by_cases h₁ : p.1 = k₀
    · by_cases h₂ : k = p.1
      · subst h₁
        subst h₂
        simp [dlookup]
      · have hk : ¬ k = k₀ := by rw [← h₁]; exact h₂
        simp [dlookup, h₁, h₂, hk, ih]
    · by_cases h₂ : k = p.1
      · have hk : ¬ k = k₀ := by rw [h₂]; exact h₁
        simp [dlookup, h₁, h₂, hk]
      · have hk0 : ¬ k₀ = p.1 := fun hh => h₁ hh.symm
        simp [dlookup, h₁, h₂, hk0, ih]

theorem dlookup_dictInsert {β : Type} (k k₀ : String) (v₀ : β)
    (d : List (String × β)) :
    dlookup k (dictInsert d (k₀, v₀)) =
      if k = k₀ then some v₀ else dlookup k d := by
  unfold dictInsert
  by_cases hany : (d.any fun p => p.1 = k₀) = true
  · rw [if_pos hany, dlookup_map_replace]
    rw [any_key_eq_isSome] at hany
    by_cases h : k = k₀
    · obtain ⟨v, hv⟩ := Option.isSome_iff_exists.mp hany
      simp [h, hv]
    · simp [h]
  · rw [if_neg hany, dlookup_append]
    rw [any_key_eq_isSome] at hany
    have hnone : dlookup k₀ d = none := by
      cases hd : dlookup k₀ d with
      | none => rfl
      | some v => exact absurd (by simp [hd]) hany
    by_cases h : k = k₀
    · rw [h, hnone]
      simp [oOr, dlookup, h]
    · cases hd : dlookup k d with
      | none => simp [oOr, dlookup, h, hd]
      | some v => simp [oOr, dlookup, h, hd]

theorem dlookup_dictMerge {β : Type} (k : String) (a b : List (String × β))
    (hb : (dictKeys b).Nodup) :
    dlookup k (dictMerge a b) = oOr (dlookup k b) (dlookup k a) := by
  induction b generalizing a with
  | nil => simp [dictMerge, dlookup, oOr]
  | cons p b ih =>
    simp only [dictKeys, List.map_cons, List.nodup_cons] at hb
    have hstep : dictMerge a (p :: b) = dictMerge (dictInsert a (p.1, p.2)) b := by
      simp [dictMerge, List.foldl_cons]
    rw [hstep, ih (dictInsert a (p.1, p.2)) hb.2, dlookup_dictInsert]
    by_cases h : k = p.1
    · subst h
      have hnb : dlookup p.1 b = none := by
        apply dlookup_eq_none_of_not_mem_keys
        simpa [dictKeys] using hb.1
      simp [dlookup, hnb, oOr]
    · simp [dlookup, h]

/-! ## C3: configuration forwarding to `AsyncCamoufox` -/

/-- C3: `CamoufoxBrowserSession` forwards configuration to the
`AsyncCamoufox` constructor as follows.  For every constructor input: the
`firefox_user_prefs` dict passed equals the defaults
`{gfx.webrender.software: True, fission.autostart: False,
dom.ipc.processCount: 4}` overridden by the user-supplied prefs (user values
win on conflicting keys); the launch args passed are the union of
`{"--disable-gpu"}` with the user-supplied args, deduplicated; `geoip`
defaults to `True` when not supplied; and `block_webgl`, `block_webrtc`,
`disable_coop` appear among the forwarded options exactly when the caller
supplied a non-`None` value. -/
theorem c3_config_forwarding (i : CamoufoxInit) (headless : Bool)
    (proxy : Option String) :
    ((dictKeys i.firefox_user_prefs).Nodup →
      ∀ k, dlookup k (buildCamoufoxOptions i headless proxy).firefox_user_prefs =
        oOr (dlookup k i.firefox_user_prefs) (dlookup k default_firefox_prefs))
    ∧ (∀ x, x ∈ (buildCamoufoxOptions i headless proxy).args ↔
        x = "--disable-gpu" ∨ x ∈ i.args)
    ∧ (buildCamoufoxOptions i headless proxy).args.Nodup
    ∧ (i.geoip = none →
        dlookup "geoip" (buildCamoufoxOptions i headless proxy).options =
          some (OptVal.obool true))
    ∧ (∀ v, ("block_webgl", v) ∈ (buildCamoufoxOptions i headless proxy).options ↔
        i.block_webgl = some v ∧ v ≠ OptVal.onone)
    ∧ (∀ v, ("block_webrtc", v) ∈ (buildCamoufoxOptions i headless proxy).options ↔
        i.block_webrtc = some v ∧ v ≠ OptVal.onone)
    ∧ (∀ v, ("disable_coop", v) ∈ (buildCamoufoxOptions i headless proxy).options ↔
        i.disable_coop = some v ∧ v ≠ OptVal.onone) := by
  refine ⟨?_, ?_, ?_, ?_, ?_, ?_, ?_⟩
  · intro hnd k
    exact dlookup_dictMerge k default_firefox_prefs i.firefox_user_prefs hnd
  · intro x
    simp [buildCamoufoxOptions, default_launch_args, List.mem_dedup]
  · exact List.nodup_dedup _
  · intro hg
    simp [buildCamoufoxOptions, storedCamoufoxOptions, hg, dlookup]
  · intro v
    cases hw : i.block_webgl with
    | none =>
      simp [buildCamoufoxOptions, storedCamoufoxOptions, hw]
      rcases i.block_webrtc with _ | w <;> rcases i.disable_coop with _ | w' <;> simp
    | some w =>
      by_cases hwn : w = OptVal.onone <;>
        · simp [buildCamoufoxOptions, storedCamoufoxOptions, hw, hwn]
          rcases i.block_webrtc with _ | w₂ <;> rcases i.disable_coop with _ | w₃ <;>
            simp <;>
            first
            | (intro h; exact h.symm)
            | exact ⟨fun h => ⟨h.symm, fun hv => hwn (h.symm.trans hv)⟩,
                     fun hp => hp.1.symm⟩
  · intro v
    cases hw : i.block_webrtc with
    | none =>
      simp [buildCamoufoxOptions, storedCamoufoxOptions, hw]
      rcases i.block_webgl with _ | w <;> rcases i.disable_coop with _ | w' <;> simp
    | some w =>
      by_cases hwn : w = OptVal.onone <;>
        · simp [buildCamoufoxOptions, storedCamoufoxOptions, hw, hwn]
          rcases i.block_webgl with _ | w₂ <;> rcases i.disable_coop with _ | w₃ <;>
            simp <;>
            first
            | (intro h; exact h.symm)
            | exact ⟨fun h => ⟨h.symm, fun hv => hwn (h.symm.trans hv)⟩,
                     fun hp => hp.1.symm⟩
  · intro v
    cases hw : i.disable_coop with
    | none =>
      simp [buildCamoufoxOptions, storedCamoufoxOptions, hw]
      rcases i.block_webgl with _ | w <;> rcases i.block_webrtc with _ | w' <;> simp
    | some w =>
      by_cases hwn : w = OptVal.onone <;>
        · simp [buildCamoufoxOptions, storedCamoufoxOptions, hw, hwn]
          rcases i.block_webgl with _ | w₂ <;> rcases i.block_webrtc with _ | w₃ <;>
            simp <;>
            first
            | (intro h; exact h.symm)
            | exact ⟨fun h => ⟨h.symm, fun hv => hwn (h.symm.trans hv)⟩,
                     fun hp => hp.1.symm⟩

/-- Witness for C3, at the concrete input `demoInit`: a user pref overrides
the default, a default pref survives, user args are unioned with the default
arg without duplicates, `geoip` falls back to `True`, a supplied stability
option is forwarded, and the one supplied as `None` is not. -/
theorem c3_config_forwarding_witness :
    dlookup "dom.ipc.processCount"
        (buildCamoufoxOptions demoInit true none).firefox_user_prefs =
      some (PrefVal.pint 2)
    ∧ dlookup "gfx.webrender.software"
        (buildCamoufoxOptions demoInit true none).firefox_user_prefs =
      some (PrefVal.pbool true)
    ∧ "--safe-mode" ∈ (buildCamoufoxOptions demoInit true none).args
    ∧ (buildCamoufoxOptions demoInit true none).args.Nodup
    ∧ dlookup "geoip" (buildCamoufoxOptions demoInit true none).options =
      some (OptVal.obool true)
    ∧ ("block_webgl", OptVal.obool true) ∈
      (buildCamoufoxOptions demoInit true none).options
    ∧ ¬ ∃ v, ("disable_coop", v) ∈ (buildCamoufoxOptions demoInit true none).options := by
  have h := c3_config_forwarding demoInit true none
  refine ⟨?_, ?_, ?_, h.2.2.1, h.2.2.2.1 rfl, ?_, ?_⟩
  · rw [h.1 (by decide) "dom.ipc.processCount"]
    decide
  · rw [h.1 (by decide) "gfx.webrender.software"]
    decide
  · exact (h.2.1 "--safe-mode").mpr (Or.inr (by decide))
  · exact (h.2.2.2.2.1 (OptVal.obool true)).mpr ⟨rfl, by decide⟩
  · rintro ⟨v, hv⟩
    obtain ⟨h1, h2⟩ := (h.2.2.2.2.2.2 v).mp hv
    have h1' : some OptVal.onone = some v :=
      (show demoInit.disable_coop = some OptVal.onone from rfl).symm.trans h1
    exact h2 (Option.some.inj h1').symm

/-! ## C10: permission filtering in `_setup_viewports` -/

/-- C10: for every permissions list in the browser profile,
`_setup_viewports` passes to `grant_permissions` exactly the permissions
that are neither `clipboard-read` nor `clipboard-write`, and skips the grant
call entirely when that filtered list is empty. -/
theorem c10_permission_filtering (perms : List String) :
    (∀ l, grantPermissionsCall perms = some l →
      l = supportedPermissions perms ∧
      ∀ p, p ∈ l ↔ p ∈ perms ∧ p ≠ "clipboard-read" ∧ p ≠ "clipboard-write")
    ∧ (grantPermissionsCall perms = none ↔ supportedPermissions perms = []) := by
  constructor
  · intro l hl
    have hle : l = supportedPermissions perms := by
      simp only [grantPermissionsCall] at hl
      split_ifs at hl with h1 h2
      all_goals exact (Option.some.inj hl).symm
    refine ⟨hle, ?_⟩
    intro p
    rw [hle]
    unfold supportedPermissions unsupportedFirefoxPermissions
    simp [List.mem_filter, and_assoc]
  · simp only [grantPermissionsCall]
    split_ifs with h1 h2
    · have hp : perms = [] := List.isEmpty_iff.mp h1
      subst hp
      simp [supportedPermissions]
    · simp [List.isEmpty_iff.mp h2]
    · have hne : supportedPermissions perms ≠ [] := fun hc => h2 (by simp [hc])
      simp [hne]

/-- Witness for C10: a concrete permissions list keeps `geolocation` and
`notifications`, drops `clipboard-read`, and a list of only unsupported
permissions leads to the grant call being skipped. -/
theorem c10_permission_filtering_witness :
    (∀ p, p ∈ (["geolocation", "notifications"] : List String) ↔
      p ∈ (["geolocation", "clipboard-read", "notifications"] : List String) ∧
        p ≠ "clipboard-read" ∧ p ≠ "clipboard-write")
    ∧ grantPermissionsCall ["clipboard-read", "clipboard-write"] = none := by
  constructor
  · exact ((c10_permission_filtering
      ["geolocation", "clipboard-read", "notifications"]).1
      ["geolocation", "notifications"] (by decide)).2
  · exact (c10_permission_filtering ["clipboard-read", "clipboard-write"]).2.mpr
      (by decide)

/-! ## C9: idempotence of `start` and of `setup_new_browser_context` -/

/-- C9: when the session is already initialized and connected, `start`
returns `self` immediately — unchanged state, no setup step executed; and
`setup_new_browser_context` is a state-preserving no-op (no launch) whenever
a browser context already exists. -/
theorem c9_start_idempotent (env : StepEnv) (is_connected : SessionState → Bool)
    (reset : SessionState → SessionState) (s : SessionState) :
    (s.initialized = true → is_connected s = true →
      sessionStart env is_connected reset s = (s, [], Except.ok ()))
    ∧ ∀ (i : CamoufoxInit) (headless : Bool) (proxy : Option String)
        (lenv : LaunchEnv) (c : Nat), s.browser_context = some c →
        setupNewBrowserContext i headless proxy lenv s = (s, none, Except.ok ()) := by
  constructor
  · intro h1 h2
    simp [sessionStart, h1, h2]
  · intro i headless proxy lenv c hc
    simp [setupNewBrowserContext, hc]

/-- Witness for C9: a live session is returned untouched by a second
`start`, and `setup_new_browser_context` does nothing on it. -/
theorem c9_start_idempotent_witness :
    sessionStart demoEnv demoIsConnected demoReset liveSession =
      (liveSession, [], Except.ok ())
    ∧ setupNewBrowserContext CamoufoxInit.empty true none
        { aenter := Except.ok 1, contexts := [], new_context := Except.ok 1 }
        liveSession =
      (liveSession, none, Except.ok ()) := by
  have h := c9_start_idempotent demoEnv demoIsConnected demoReset liveSession
  exact ⟨h.1 rfl rfl, h.2 CamoufoxInit.empty true none _ 1 rfl⟩

/-! ## C4: `close` catches everything and clears browser references -/

/-- C4: `close` never propagates an exception — whatever the two external
shutdown calls do, an exception escaping the `try` body is returned as a log
warning and a clean body yields no warning; every `__aexit__` invocation
happens after `browser_context` and `browser` were set to `None`; when a
Camoufox instance exists `__aexit__` is the first shutdown call and its
success clears `_camoufox_instance`; and after a successful close of a
session that held a Camoufox instance no browser references remain. -/
theorem c4_close_no_propagation (aexit stop : Except String Unit) (s : SessionState) :
    (∀ e, (closeTryBody aexit stop s).2.2 = Except.error e →
      sessionClose aexit stop s =
        ((closeTryBody aexit stop s).1, (closeTryBody aexit stop s).2.1, some e))
    ∧ ((closeTryBody aexit stop s).2.2 = Except.ok () →
        (sessionClose aexit stop s).2.2 = none)
    ∧ (∀ s', CloseCall.aexit s' ∈ (sessionClose aexit stop s).2.1 →
        s'.browser_context = none ∧ s'.browser = none)
    ∧ (s.camoufox_instance ≠ none →
        (∃ s', (sessionClose aexit stop s).2.1.head? = some (CloseCall.aexit s'))
        ∧ (aexit = Except.ok () →
            (sessionClose aexit stop s).1.camoufox_instance = none))
    ∧ (s.camoufox_instance ≠ none → (sessionClose aexit stop s).2.2 = none →
        (sessionClose aexit stop s).1.browser_context = none
        ∧ (sessionClose aexit stop s).1.browser = none
        ∧ (sessionClose aexit stop s).1.camoufox_instance = none) := by
  obtain ⟨ini, bc, br, cam⟩ := s
  cases cam <;> cases aexit <;> cases stop <;>
    simp [sessionClose, closeTryBody]

/-- Witness for C4: on a live session, a raising `__aexit__` surfaces only
as a log warning, and a clean shutdown leaves no browser references. -/
theorem c4_close_no_propagation_witness :
    (sessionClose (Except.error "Browser has been closed")
        (Except.ok ()) liveSession).2.2 = some "Browser has been closed"
    ∧ (sessionClose (Except.ok ()) (Except.ok ()) liveSession).1.browser_context = none
    ∧ (sessionClose (Except.ok ()) (Except.ok ()) liveSession).1.browser = none
    ∧ (sessionClose (Except.ok ()) (Except.ok ()) liveSession).1.camoufox_instance = none := by
  have h1 := c4_close_no_propagation (Except.error "Browser has been closed")
    (Except.ok ()) liveSession
  have h2 := c4_close_no_propagation (Except.ok ()) (Except.ok ()) liveSession
  refine ⟨?_, ?_⟩
  · rw [h1.1 "Browser has been closed" rfl]
  · exact h2.2.2.2.2 (by simp [liveSession]) rfl

/-! ## C2: the `start` control flow -/

theorem runSteps_trace_front (env : StepEnv) (s : SessionState)
    (l : List StartStep) : ((runSteps env s l).2.1.map Prod.fst) <+: l := by
  induction l generalizing s with
  | nil => simp [runSteps]
  | cons st rest ih =>
    rcases henv : env st s with ⟨s', r⟩
    cases r with
    | error e =>
      simp only [runSteps, henv, List.map_cons, List.map_nil]
      exact ⟨rest, rfl⟩
    | ok u =>
      rcases hrun : runSteps env s' rest with ⟨s'', tr, r'⟩
      have hih := ih s'
      rw [hrun] at hih
      obtain ⟨t, ht⟩ := hih
      simp only [runSteps, henv, hrun, List.map_cons]
      exact ⟨t, by simp [ht]⟩

theorem runSteps_ok_trace (env : StepEnv) (s : SessionState)
    (l : List StartStep) (h : (runSteps env s l).2.2 = Except.ok ()) :
    (runSteps env s l).2.1.map Prod.fst = l := by
  induction l generalizing s with
  | nil => simp [runSteps]
  | cons st rest ih =>
    rcases henv : env st s with ⟨s', r⟩
    cases r with
    | error e => simp [runSteps, henv] at h
    | ok u =>
      rcases hrun : runSteps env s' rest with ⟨s'', tr, r'⟩
      rw [runSteps, henv] at h ⊢
      simp only [hrun] at h ⊢
      have hih := ih s'
      rw [hrun] at hih
      simp only [List.map_cons, List.cons.injEq, true_and]
      exact hih h

theorem runSteps_head (env : StepEnv) (s : SessionState) (st : StartStep)
    (rest : List StartStep) :
    (runSteps env s (st :: rest)).2.1.head? = some (st, s) := by
  rcases henv : env st s with ⟨s', r⟩
  cases r with
  | error e => simp [runSteps, henv]
  | ok u =>
    rcases hrun : runSteps env s' rest with ⟨s'', tr, r'⟩
    simp [runSteps, henv, hrun]

theorem runSteps_preserves_context (env : StepEnv)
    (hframe : ∀ st s', s'.browser_context ≠ none →
      ((env st s').1).browser_context ≠ none)
    (s : SessionState) (l : List StartStep)
    (hs : s.browser_context ≠ none) :
    ((runSteps env s l).1).browser_context ≠ none := by
  induction l generalizing s with
  | nil => simpa [runSteps] using hs
  | cons st rest ih =>
    rcases henv : env st s with ⟨s', r⟩
    have hs' : s'.browser_context ≠ none := by
      have hf := hframe st s hs
      rw [henv] at hf
      exact hf
    cases r with
    | error e => simpa [runSteps, henv] using hs'
    | ok u =>
      rcases hrun : runSteps env s' rest with ⟨s'', tr, r'⟩
      have hih := ih s' hs'
      rw [hrun] at hih
      simpa [runSteps, henv, hrun] using hih

theorem stepsSplit : stepsBeforeAssert ++ stepsAfterAssert = startSeq := rfl

theorem startTryBody_eq_error (env : StepEnv) (s s₁ : SessionState)
    (tr₁ : List (StartStep × SessionState)) (e : String)
    (h1 : runSteps env s stepsBeforeAssert = (s₁, tr₁, Except.error e)) :
    startTryBody env s = (s₁, tr₁, Except.error e) := by
  unfold startTryBody
  rw [h1]

theorem startTryBody_eq_assertFail (env : StepEnv) (s s₁ : SessionState)
    (tr₁ : List (StartStep × SessionState)) (u : Unit)
    (h1 : runSteps env s stepsBeforeAssert = (s₁, tr₁, Except.ok u))
    (hbc : s₁.browser_context = none) :
    startTryBody env s =
      (s₁, tr₁,
       Except.error "AssertionError: Failed to connect to or create a new BrowserContext") := by
  unfold startTryBody
  rw [h1]
  dsimp only
  rw [hbc]

theorem startTryBody_eq_full (env : StepEnv) (s s₁ s₂ : SessionState)
    (tr₁ tr₂ : List (StartStep × SessionState)) (u : Unit) (c : Nat)
    (r₂ : Except String Unit)
    (h1 : runSteps env s stepsBeforeAssert = (s₁, tr₁, Except.ok u))
    (hbc : s₁.browser_context = some c)
    (h2 : runSteps env s₁ stepsAfterAssert = (s₂, tr₂, r₂)) :
    startTryBody env s = (s₂, tr₁ ++ tr₂, r₂) := by
  unfold startTryBody
  rw [h1]
  dsimp only
  rw [hbc]
  dsimp only
  rw [h2]

theorem startTryBody_front (env : StepEnv) (s : SessionState) :
    ((startTryBody env s).2.1.map Prod.fst) <+: startSeq := by
  rcases h1 : runSteps env s stepsBeforeAssert with ⟨s₁, tr₁, r₁⟩
  have hp1 : tr₁.map Prod.fst <+: stepsBeforeAssert := by
    have hp := runSteps_trace_front env s stepsBeforeAssert
    rw [h1] at hp
    exact hp
  cases r₁ with
  | error e =>
    rw [startTryBody_eq_error env s s₁ tr₁ e h1]
    exact hp1.trans ⟨stepsAfterAssert, stepsSplit⟩
  | ok u =>
    cases hbc : s₁.browser_context with
    | none =>
      rw [startTryBody_eq_assertFail env s s₁ tr₁ u h1 hbc]
      exact hp1.trans ⟨stepsAfterAssert, stepsSplit⟩
    | some c =>
      rcases h2 : runSteps env s₁ stepsAfterAssert with ⟨s₂, tr₂, r₂⟩
      rw [startTryBody_eq_full env s s₁ s₂ tr₁ tr₂ u c r₂ h1 hbc h2]
      have hfull : tr₁.map Prod.fst = stepsBeforeAssert := by
        have hq := runSteps_ok_trace env s stepsBeforeAssert (by rw [h1])
        rw [h1] at hq
        exact hq
      have hp2 : tr₂.map Prod.fst <+: stepsAfterAssert := by
        have hp := runSteps_trace_front env s₁ stepsAfterAssert
        rw [h2] at hp
        exact hp
      obtain ⟨t, ht⟩ := hp2
      refine ⟨t, ?_⟩
      rw [List.map_append, hfull, List.append_assoc, ht, stepsSplit]

theorem startTryBody_head (env : StepEnv) (s : SessionState) :
    (startTryBody env s).2.1.head? =
      some (StartStep.prepare_user_data_dir, s) := by
  rcases h1 : runSteps env s stepsBeforeAssert with ⟨s₁, tr₁, r₁⟩
  have hhd : tr₁.head? = some (StartStep.prepare_user_data_dir, s) := by
    have hh := runSteps_head env s StartStep.prepare_user_data_dir
      [StartStep.detect_display_configuration,
       StartStep.setup_playwright,
       StartStep.setup_browser_via_passed_objects,
       StartStep.setup_browser_via_browser_pid,
       StartStep.setup_browser_via_wss_url,
       StartStep.setup_browser_via_cdp_url,
       StartStep.setup_new_browser_context]
    rw [show (StartStep.prepare_user_data_dir ::
      [StartStep.detect_display_configuration,
       StartStep.setup_playwright,
       StartStep.setup_browser_via_passed_objects,
       StartStep.setup_browser_via_browser_pid,
       StartStep.setup_browser_via_wss_url,
       StartStep.setup_browser_via_cdp_url,
       StartStep.setup_new_browser_context]) = stepsBeforeAssert from rfl,
      h1] at hh
    exact hh
  cases r₁ with
  | error e =>
    rw [startTryBody_eq_error env s s₁ tr₁ e h1]
    exact hhd
  | ok u =>
    cases hbc : s₁.browser_context with
    | none =>
      rw [startTryBody_eq_assertFail env s s₁ tr₁ u h1 hbc]
      exact hhd
    | some c =>
      rcases h2 : runSteps env s₁ stepsAfterAssert with ⟨s₂, tr₂, r₂⟩
      rw [startTryBody_eq_full env s s₁ s₂ tr₁ tr₂ u c r₂ h1 hbc h2]
      cases tr₁ with
      | nil => exact absurd hhd (by simp)
      | cons p tr₁' => simpa using hhd

theorem startTryBody_ok_trace (env : StepEnv) (s : SessionState)
    (h : (startTryBody env s).2.2 = Except.ok ()) :
    (startTryBody env s).2.1.map Prod.fst = startSeq := by
  rcases h1 : runSteps env s stepsBeforeAssert with ⟨s₁, tr₁, r₁⟩
  cases r₁ with
  | error e =>
    rw [startTryBody_eq_error env s s₁ tr₁ e h1] at h
    simp at h
  | ok u =>
    cases hbc : s₁.browser_context with
    | none =>
      rw [startTryBody_eq_assertFail env s s₁ tr₁ u h1 hbc] at h
      simp at h
    | some c =>
      rcases h2 : runSteps env s₁ stepsAfterAssert with ⟨s₂, tr₂, r₂⟩
      rw [startTryBody_eq_full env s s₁ s₂ tr₁ tr₂ u c r₂ h1 hbc h2] at h ⊢
      have hfull₁ : tr₁.map Prod.fst = stepsBeforeAssert := by
        have hq := runSteps_ok_trace env s stepsBeforeAssert (by rw [h1])
        rw [h1] at hq
        exact hq
      have hfull₂ : tr₂.map Prod.fst = stepsAfterAssert := by
        have hq := runSteps_ok_trace env s₁ stepsAfterAssert (by rw [h2]; exact h)
        rw [h2] at hq
        exact hq
      rw [List.map_append, hfull₁, hfull₂, stepsSplit]

theorem startTryBody_ok_context (env : StepEnv) (s : SessionState)
    (hframe : ∀ st s', s'.browser_context ≠ none →
      ((env st s').1).browser_context ≠ none)
    (h : (startTryBody env s).2.2 = Except.ok ()) :
    ((startTryBody env s).1).browser_context ≠ none := by
  rcases h1 : runSteps env s stepsBeforeAssert with ⟨s₁, tr₁, r₁⟩
  cases r₁ with
  | error e =>
    rw [startTryBody_eq_error env s s₁ tr₁ e h1] at h
    simp at h
  | ok u =>
    cases hbc : s₁.browser_context with
    | none =>
      rw [startTryBody_eq_assertFail env s s₁ tr₁ u h1 hbc] at h
      simp at h
    | some c =>
      rcases h2 : runSteps env s₁ stepsAfterAssert with ⟨s₂, tr₂, r₂⟩
      rw [startTryBody_eq_full env s s₁ s₂ tr₁ tr₂ u c r₂ h1 hbc h2]
      have hctx := runSteps_preserves_context env hframe s₁ stepsAfterAssert
        (by rw [hbc]; exact fun hf => Option.noConfusion hf)
      rw [h2] at hctx
      simpa using hctx

theorem sessionStart_eq_early (env : StepEnv) (is_connected : SessionState → Bool)
    (reset : SessionState → SessionState) (s : SessionState)
    (h : (s.initialized && is_connected s) = true) :
    sessionStart env is_connected reset s = (s, [], Except.ok ()) := by
  unfold sessionStart
  rw [if_pos h]

theorem sessionStart_eq_error (env : StepEnv) (is_connected : SessionState → Bool)
    (reset : SessionState → SessionState) (s s₂ : SessionState)
    (tr : List (StartStep × SessionState)) (e : String)
    (hc : (s.initialized && is_connected s) = false)
    (hbody : startTryBody env { reset s with initialized := true } =
      (s₂, tr, Except.error e)) :
    sessionStart env is_connected reset s =
      ({ s₂ with initialized := false }, tr, Except.error e) := by
  unfold sessionStart
  rw [if_neg (by rw [hc]; exact Bool.false_ne_true)]
  dsimp only
  rw [hbody]

theorem sessionStart_eq_ok (env : StepEnv) (is_connected : SessionState → Bool)
    (reset : SessionState → SessionState) (s s₂ : SessionState)
    (tr : List (StartStep × SessionState)) (u : Unit)
    (hc : (s.initialized && is_connected s) = false)
    (hbody : startTryBody env { reset s with initialized := true } =
      (s₂, tr, Except.ok u)) :
    sessionStart env is_connected reset s = (s₂, tr, Except.ok ()) := by
  unfold sessionStart
  rw [if_neg (by rw [hc]; exact Bool.false_ne_true)]
  dsimp only
  rw [hbody]

/-- C2: `CamoufoxBrowserSession.start` follows the parent class's
initialization flow as a fixed sequence — the executed setup steps are
always an order-preserving prefix of `startSeq` and a non-short-circuited
successful call executes exactly `startSeq` — and it is atomic with respect
to the `initialized` flag: the flag is already `True` when the first setup
step runs, any exception leaves the session with `initialized = False` and
is re-raised as the outcome, and a successful non-short-circuited `start`
ends with a non-`None` `browser_context` (given that the two post-assert
parent calls never clear an existing context). -/
theorem c2_start_control_flow (env : StepEnv)
    (is_connected : SessionState → Bool)
    (reset : SessionState → SessionState) (s : SessionState) :
    ((sessionStart env is_connected reset s).2.1.map Prod.fst) <+: startSeq
    ∧ (∀ st s₀,
        (sessionStart env is_connected reset s).2.1.head? = some (st, s₀) →
        s₀.initialized = true)
    ∧ (∀ e, (sessionStart env is_connected reset s).2.2 = Except.error e →
        (sessionStart env is_connected reset s).1.initialized = false)
    ∧ (¬ (s.initialized = true ∧ is_connected s = true) →
        (sessionStart env is_connected reset s).2.2 = Except.ok () →
        (sessionStart env is_connected reset s).2.1.map Prod.fst = startSeq)
    ∧ ((∀ st s', s'.browser_context ≠ none →
          ((env st s').1).browser_context ≠ none) →
        ¬ (s.initialized = true ∧ is_connected s = true) →
        (sessionStart env is_connected reset s).2.2 = Except.ok () →
        (sessionStart env is_connected reset s).1.browser_context ≠ none) := by
  by_cases hcond : (s.initialized && is_connected s) = true
  · rw [sessionStart_eq_early env is_connected reset s hcond]
    have hboth := hcond
    rw [Bool.and_eq_true] at hboth
    refine ⟨⟨startSeq, rfl⟩, ?_, ?_, ?_, ?_⟩
    · intro st s₀ h
      simp at h
    · intro e h
      simp at h
    · intro hne
      exact absurd ⟨hboth.1, hboth.2⟩ hne
    · intro _ hne
      exact absurd ⟨hboth.1, hboth.2⟩ hne
  · have hc : (s.initialized && is_connected s) = false := by
      cases hb : (s.initialized && is_connected s) with
      | false => rfl
      | true => exact absurd hb hcond
    rcases hbody : startTryBody env { reset s with initialized := true }
      with ⟨s₂, tr, r⟩
    have hp := startTryBody_front env { reset s with initialized := true }
    have hh := startTryBody_head env { reset s with initialized := true }
    rw [hbody] at hp hh
    cases r with
    | error e0 =>
      rw [sessionStart_eq_error env is_connected reset s s₂ tr e0 hc hbody]
      refine ⟨hp, ?_, ?_, ?_, ?_⟩
      · intro st s₀ h
        rw [h] at hh
        have hpair := Option.some.inj hh
        have hs₀ : s₀ = { reset s with initialized := true } :=
          congrArg Prod.snd hpair
        rw [hs₀]
      · intro e h
        rfl
      · intro _ h
        simp at h
      · intro _ _ h
        simp at h
    | ok u =>
      rw [sessionStart_eq_ok env is_connected reset s s₂ tr u hc hbody]
      refine ⟨hp, ?_, ?_, ?_, ?_⟩
      · intro st s₀ h
        rw [h] at hh
        have hpair := Option.some.inj hh
        have hs₀ : s₀ = { reset s with initialized := true } :=
          congrArg Prod.snd hpair
        rw [hs₀]
      · intro e h
        simp at h
      · intro hne hok
        have ht := startTryBody_ok_trace env { reset s with initialized := true }
          (by rw [hbody])
        rw [hbody] at ht
        exact ht
      · intro hframe hne hok
        have hx := startTryBody_ok_context env { reset s with initialized := true }
          hframe (by rw [hbody])
        rw [hbody] at hx
        exact hx

/-- Witness for C2: starting a fresh session under a plainly successful
environment runs exactly the parent's fixed sequence and ends with a
browser context. -/
theorem c2_start_control_flow_witness :
    (sessionStart demoEnv demoIsConnected demoReset freshSession).2.1.map Prod.fst
      = startSeq
    ∧ (sessionStart demoEnv demoIsConnected demoReset freshSession).1.browser_context
      ≠ none := by
  have h := c2_start_control_flow demoEnv demoIsConnected demoReset freshSession
  constructor
  · exact h.2.2.2.1 (by decide) rfl
  · refine h.2.2.2.2 ?_ (by decide) rfl
    intro st s' hs'
    cases st <;> simp [demoEnv] <;> exact hs'

/-! ## C1: crash-classified exception dispatch in the debug loops -/

/-- C1: in both debug scripts' navigation loops, the crash-recovery path is
taken if and only if the navigation raised an exception whose lowered `str`
contains `"crashed"`; any other exception is only logged and the iteration
falls through to the next test site. -/
theorem c1_crash_dispatch (url : String) (o : FixedSiteOutcome)
    (recover : Except String Unit) :
    (tookFixedCrashRecovery (fixedSiteBody url o).1 = true ↔
      ∃ e, o.firstGoto = Except.error e ∧ isCrashMessage e = true)
    ∧ (∀ e, o.firstGoto = Except.error e → isCrashMessage e = false →
        fixedSiteBody url o =
          ([NavEv.goto url "domcontentloaded" 30000, NavEv.logError e],
           Except.ok ()))
    ∧ (∀ first, tookUltraCrashRecovery (ultraSiteBody url first recover).1 = true ↔
        ∃ e, first = Except.error e ∧ isCrashMessage e = true)
    ∧ (∀ e, isCrashMessage e = false →
        ultraSiteBody url (Except.error e) recover =
          ([UltraEv.goto url "domcontentloaded" 20000, UltraEv.logFailed e],
           true)) := by
  refine ⟨?_, ?_, ?_, ?_⟩
  · rcases o with ⟨fg, bg, ej, rg⟩
    cases fg with
    | ok u => simp [fixedSiteBody, tookFixedCrashRecovery]
    | error e =>
      by_cases hc : isCrashMessage e = true
      · cases bg <;> cases ej <;> cases rg <;>
          simp [fixedSiteBody, tookFixedCrashRecovery, hc]
      · simp [fixedSiteBody, tookFixedCrashRecovery, hc]
  · intro e he hc
    rcases o with ⟨fg, bg, ej, rg⟩
    cases fg with
    | ok u => exact absurd he (by simp)
    | error e' =>
      have : e' = e := Except.error.inj he
      subst this
      simp [fixedSiteBody, hc]
  · intro first
    cases first with
    | ok u => simp [ultraSiteBody, tookUltraCrashRecovery]
    | error e =>
      by_cases hc : isCrashMessage e = true
      · cases recover <;> simp [ultraSiteBody, tookUltraCrashRecovery, hc]
      · simp [ultraSiteBody, tookUltraCrashRecovery, hc]
  · intro e hc
    simp [ultraSiteBody, hc]

/-- Witness for C1: a navigation failure whose message contains `crashed`
drives both loops into their crash-recovery paths. -/
theorem c1_crash_dispatch_witness :
    tookFixedCrashRecovery
      (fixedSiteBody "https://www.google.com" demoCrashOutcome).1 = true
    ∧ tookUltraCrashRecovery
      (ultraSiteBody "https://www.google.com" (Except.error "Page crashed")
        (Except.ok ())).1 = true := by
  have h := c1_crash_dispatch "https://www.google.com" demoCrashOutcome
    (Except.ok ())
  constructor
  · exact h.1.mpr ⟨"Page crashed", rfl, by decide⟩
  · exact (h.2.2.1 (Except.error "Page crashed")).mpr
      ⟨"Page crashed", rfl, by decide⟩

/-! ## C5: the fallback sequence of `debug_camoufox_fixed` -/

/-- C5: on a crash-classified navigation failure, `debug_camoufox_fixed`
navigates to `about:blank`, runs the feature-disabling JavaScript, and
retries the same URL exactly once with `wait_until="networkidle"` and a
10000 ms timeout (down from 30000 ms with `"domcontentloaded"`); a failing
retry is only logged, the iteration still falls through, and the URL is
navigated exactly twice. -/
theorem c5_fallback_retry (url : String) (o : FixedSiteOutcome) (e : String)
    (hfirst : o.firstGoto = Except.error e) (hcrash : isCrashMessage e = true)
    (hblank : o.blankGoto = Except.ok ()) (heval : o.evalJs = Except.ok ()) :
    (o.retryGoto = Except.ok () →
      fixedSiteBody url o =
        ([NavEv.goto url "domcontentloaded" 30000, NavEv.logError e,
          NavEv.logCrashDetected, NavEv.gotoBlank,
          NavEv.evaluateDisableFeatures,
          NavEv.goto url "networkidle" 10000, NavEv.logFallbackSuccess],
         Except.ok ()))
    ∧ (∀ e', o.retryGoto = Except.error e' →
        fixedSiteBody url o =
          ([NavEv.goto url "domcontentloaded" 30000, NavEv.logError e,
            NavEv.logCrashDetected, NavEv.gotoBlank,
            NavEv.evaluateDisableFeatures,
            NavEv.goto url "networkidle" 10000, NavEv.logFallbackError],
           Except.ok ()))
    ∧ (fixedSiteBody url o).1.countP
        (fun ev => match ev with
          | NavEv.goto u _ _ => u == url
          | _ => false) = 2 := by
  rcases o with ⟨fg, bg, ej, rg⟩
  simp only at hfirst hblank heval
  subst hfirst
  subst hblank
  subst heval
  refine ⟨?_, ?_, ?_⟩
  · intro hr
    simp only at hr
    subst hr
    simp [fixedSiteBody, hcrash]
  · intro e' hr
    simp only at hr
    subst hr
    simp [fixedSiteBody, hcrash]
  · cases rg <;>
      simp [fixedSiteBody, hcrash, List.countP_cons, List.countP_nil]

/-- Witness for C5: the concrete crashing outcome follows the exact
fallback sequence, with the failing retry only logged. -/
theorem c5_fallback_retry_witness :
    fixedSiteBody "https://www.youtube.com" demoCrashOutcome =
      ([NavEv.goto "https://www.youtube.com" "domcontentloaded" 30000,
        NavEv.logError "Page crashed", NavEv.logCrashDetected,
        NavEv.gotoBlank, NavEv.evaluateDisableFeatures,
        NavEv.goto "https://www.youtube.com" "networkidle" 10000,
        NavEv.logFallbackError], Except.ok ()) := by
  exact (c5_fallback_retry "https://www.youtube.com" demoCrashOutcome
    "Page crashed" rfl (by decide) rfl rfl).2.1 "Timeout 10000ms exceeded" rfl

/-! ## C6: stability environment variables at module import time -/

/-- C6: whatever the pre-existing process environment, after the debug
modules' top-level statements run, `debug_camoufox_fixed` has set
`MOZ_DISABLE_CONTENT_SANDBOX=1`, and `debug_camoufox_ultra_stable` has
additionally set `MOZ_FORCE_DISABLE_E10S=1`, `MOZ_X11_EGL=0` and
`MOZ_WEBRENDER=0`; in both modules every environment assignment precedes
every browser-driving call. -/
theorem c6_env_setup (e0 : List (String × String)) :
    dlookup "MOZ_DISABLE_CONTENT_SANDBOX"
      (applyModule e0 debugCamoufoxFixedModule) = some "1"
    ∧ envSetsBeforeBrowserCalls debugCamoufoxFixedModule = true
    ∧ dlookup "MOZ_DISABLE_CONTENT_SANDBOX"
      (applyModule e0 debugCamoufoxUltraStableModule) = some "1"
    ∧ dlookup "MOZ_FORCE_DISABLE_E10S"
      (applyModule e0 debugCamoufoxUltraStableModule) = some "1"
    ∧ dlookup "MOZ_X11_EGL"
      (applyModule e0 debugCamoufoxUltraStableModule) = some "0"
    ∧ dlookup "MOZ_WEBRENDER"
      (applyModule e0 debugCamoufoxUltraStableModule) = some "0"
    ∧ envSetsBeforeBrowserCalls debugCamoufoxUltraStableModule = true := by
  refine ⟨?_, rfl, ?_, ?_, ?_, ?_, rfl⟩ <;>
    simp [debugCamoufoxFixedModule, debugCamoufoxUltraStableModule,
      applyModule, dlookup_dictInsert]

/-! ## C7: `asyncio.wait_for` used only for hang detection -/

/-- C7: both `asyncio.wait_for` call sites in the repository use a fixed
30-second timeout around an agent-run call; the wrapped call is scheduled
exactly once whatever happens; a timeout re-raises out of
`run_with_timeout`, makes `test_agent_execution_flow` report failure, and
makes `test_tui_mimicry` return `False` — never a retry. -/
theorem c7_wait_for_hang_detection :
    (∀ site ∈ repoWaitForSites, site.timeoutSecs = 30 ∧
      (site.wrapped = "agent.run()" ∨ site.wrapped = "agent_task_worker()"))
    ∧ (∀ w, (runWithTimeout w).2 = 1)
    ∧ (runWithTimeout WaitOutcome.timedOut).1 = Except.error PyExc.timeoutError
    ∧ testAgentExecutionFlow (Except.ok ()) WaitOutcome.timedOut = (false, 1)
    ∧ (∀ w, (testTuiMimicry w).2 = 1)
    ∧ testTuiMimicry WaitOutcome.timedOut = (false, 1) := by
  refine ⟨by decide, ?_, rfl, rfl, ?_, rfl⟩
  · intro w
    cases w <;> rfl
  · intro w
    cases w <;> rfl

/-- Witness for C7: the first registered site has the 30-second timeout,
and a completed wait also schedules the wrapped call exactly once. -/
theorem c7_wait_for_hang_detection_witness :
    ({ file := "custom/debug_camoufox_tui_enhanced.py"
       wrapped := "agent.run()"
       timeoutSecs := 30 } : WaitForSite).timeoutSecs = 30
    ∧ (runWithTimeout (WaitOutcome.completed (Except.ok ()))).2 = 1 := by
  have h := c7_wait_for_hang_detection
  exact ⟨(h.1 _ (by decide)).1, h.2.1 _⟩

/-! ## C8: `test_browser_use_integration` -/

/-- C8: `test_browser_use_integration` returns `True` exactly when every
awaited call of the session lifecycle succeeds, the fetched title contains
`"Example Domain"`, and the evaluated user agent contains `"Firefox"`; in
every other case — any exception included — it returns `False`. -/
theorem c8_integration_result (o : IntegrationOutcomes) :
    testBrowserUseIntegration o = true ↔
      ∃ t ua w, o.start = Except.ok () ∧ o.goto = Except.ok ()
        ∧ o.waitLoad = Except.ok () ∧ o.title = Except.ok t
        ∧ o.evalUserAgent = Except.ok ua ∧ o.evalWebdriver = Except.ok w
        ∧ o.close = Except.ok ()
        ∧ strContains t "Example Domain" = true
        ∧ strContains ua "Firefox" = true := by
  rcases o with ⟨st, gt, wl, ti, ua, wd, cl⟩
  cases st <;> cases gt <;> cases wl <;> cases ti <;> cases ua <;>
    cases wd <;> cases cl <;> simp [testBrowserUseIntegration]

/-- Witness for C8: a fully successful run against `example.com` with a
Firefox user agent returns `True`. -/
theorem c8_integration_result_witness :
    testBrowserUseIntegration demoIntegrationOk = true := by
  exact (c8_integration_result demoIntegrationOk).mpr
    ⟨"Example Domain",
     "Mozilla/5.0 (X11; Linux x86_64; rv:132.0) Gecko/20100101 Firefox/132.0",
     "undefined", rfl, rfl, rfl, rfl, rfl, rfl, rfl, by decide, by decide⟩
